import Mathlib

/-!
Verification of the query-parsing and function-dispatch pipeline of the
financial-advisor chatbot (`chatbot_app.py`).

Shallow embedding conventions:
* Python floats are modelled by `Rat` (exact arithmetic); Python's
  `ZeroDivisionError` on division and on `0.0 ** negative` is modelled
  explicitly by `pydiv` / `pypow` returning `Except`.
* String operations (`lower`, `upper`, `split`, `isalpha`, `isalnum`)
  are modelled for ASCII text, matching Python's behaviour on the ASCII
  queries that all claims use.
* The two LLM round-trips and the market-data call are external
  collaborators; their outcomes are supplied by an `Env` record.  The
  pure post-parse validation stage of each parameter extractor is
  embedded separately as a function of the parsed JSON object.
-/

namespace FinanceBot

/-- ASCII model of Python `str.lower` applied characterwise. -/
def pyLowerChars (cs : List Char) : List Char := cs.map Char.toLower

/-- ASCII model of Python `str.upper` applied characterwise. -/
def pyUpperChars (cs : List Char) : List Char := cs.map Char.toUpper

/-- Is `pat` a prefix of `hay`?  (Helper for Python's substring test.) -/
def listPref : List Char → List Char → Bool
  | [], _ => true
  | _ :: _, [] => false
  | a :: as, b :: bs => a == b && listPref as bs

/-- Does `pat` occur contiguously inside `hay`?  Models Python's
`pat in hay` on strings. -/
def listSub (pat : List Char) : List Char → Bool
  | [] => pat.isEmpty
  | c :: rest => listPref pat (c :: rest) || listSub pat rest

/-- Python `keyword in query` substring containment on strings. -/
def strContains (hay pat : String) : Bool := listSub pat.data hay.data

/-- Auxiliary for `wsSplit`: `cur` holds the current token reversed. -/
def wsSplitAux : List Char → List Char → List (List Char)
  | cur, [] => if cur.isEmpty then [] else [cur.reverse]
  | cur, c :: rest =>
    if c.isWhitespace then
      if cur.isEmpty then wsSplitAux [] rest
      else cur.reverse :: wsSplitAux [] rest
    else wsSplitAux (c :: cur) rest

/-- Model of Python `str.split()` with no arguments: split on runs of
whitespace, discarding empty tokens. -/
def wsSplit (cs : List Char) : List (List Char) := wsSplitAux [] cs

/-- Model of Python `str.isalpha()`: nonempty and every character
alphabetic (Python returns `False` for the empty string). -/
def pyIsAlpha (w : List Char) : Bool := !w.isEmpty && w.all Char.isAlpha

/-- The per-token cleanup of `_extract_ticker_symbols`:
`''.join(c for c in word if c.isalnum())`. -/
def cleanWord (w : List Char) : List Char := w.filter Char.isAlphanum

/-- The candidate test of `_extract_ticker_symbols`:
`word.isalpha() and len(word) <= 5 and word == word.upper()`.
(The last conjunct is kept even though the caller has already
uppercased the whole query, exactly as in the source.) -/
def isTickerCandidate (w : List Char) : Bool :=
  pyIsAlpha w && decide (w.length ≤ 5) && w == pyUpperChars w

/-- Embedding of `_extract_ticker_symbols` (chatbot_app.py:502-516):
`words = query.upper().split()`, each word is stripped to its
alphanumeric characters and kept when `isTickerCandidate` holds,
in order of appearance. -/
def extract_ticker_symbols (query : String) : List String :=
  (((wsSplit (pyUpperChars query.data)).map cleanWord).filter
      isTickerCandidate).map List.asString

/-! ### JSON values and the parameter-extractor validation stages

The extractors send the query to the LLM, isolate the first `...`
JSON span of the reply and `json.loads` it.  The resulting object is
modelled as an association list of leaf values.  The modelled value
universe is restricted to the leaves the extraction prompts ask for
(`null`, booleans, numbers); strings, arrays and nested objects are
not modelled. -/

/-- A parsed JSON leaf value (restricted universe, see above). -/
inductive JValue where
  | null : JValue
  | bool (b : Bool) : JValue
  | num (q : Rat) : JValue
deriving DecidableEq, Repr

/-- A parsed JSON object: association list of keys to leaf values. -/
abbrev JObj := List (String × JValue)

/-- Python `params.get(key)`: `none` models an absent key (Python
`None` from a missing key); note that a present `null` is distinct. -/
def jget (o : JObj) (k : String) : Option JValue :=
  (List.lookup k o)

/-- Python `params.get(key, default)`: the default is used only when
the key is absent; a present `null` value is returned as `null`. -/
def jgetD (o : JObj) (k : String) (d : JValue) : JValue :=
  (jget o k).getD d

/-- Python truthiness of `params.get(key)`: `None` (absent key or
explicit `null`), `False` and `0` are falsy. -/
def truthy : Option JValue → Bool
  | none => false
  | some .null => false
  | some (.bool b) => b
  | some (.num q) => !(q == 0)

/-- Python `params.get(key) is not None`: true exactly for a present,
non-`null` value. -/
def nonNull : Option JValue → Bool
  | none => false
  | some .null => false
  | some _ => true

/-- Python `float(v)` on a JSON leaf: fails (raises) on `None`. -/
def pyFloat : JValue → Option Rat
  | .null => none
  | .bool b => some (if b then 1 else 0)
  | .num q => some q

/-- Truncation toward zero, Python `int()` applied to a float. -/
def ratTrunc (q : Rat) : Int := if 0 ≤ q then q.floor else q.ceil

/-- Python `int(v)` on a JSON leaf: fails (raises) on `None`. -/
def pyInt : JValue → Option Int
  | .null => none
  | .bool b => some (if b then 1 else 0)
  | .num q => some (ratTrunc q)

/-- `float()` lifted over an optional lookup result. -/
def pyFloatO (o : Option JValue) : Option Rat := o.bind pyFloat

/-- `int()` lifted over an optional lookup result. -/
def pyIntO (o : Option JValue) : Option Int := o.bind pyInt

/-- Parameters of `calculate_loan_payment`. -/
structure LoanParams where
  principal : Rat
  interest_rate : Rat
  years : Int
deriving DecidableEq, Repr

/-- Parameters of `calculate_investment_growth`. -/
structure InvestParams where
  initial_investment : Rat
  monthly_contribution : Rat
  annual_return : Rat
  years : Int
deriving DecidableEq, Repr

/-- Parameters of `calculate_retirement_needs`. -/
structure RetireParams where
  current_age : Int
  retirement_age : Int
  life_expectancy : Int
  annual_expenses : Rat
  inflation_rate : Rat
  current_savings : Rat
  monthly_contribution : Rat
  expected_return : Rat
deriving DecidableEq, Repr

/-- Parameters of `analyze_budget` (expense values assumed numeric). -/
structure BudgetParams where
  income : Rat
  expenses_dict : List (String × Rat)
deriving DecidableEq, Repr

/-- Validation stage of `_extract_loan_parameters`
(chatbot_app.py:548-569): the guard is Python truthiness
(`if params.get("principal") and params.get("interest_rate") and
params.get("years")`), then the three conversions; a conversion
failure is caught by the surrounding `except` and yields `none`. -/
def extract_loan_parameters (params : JObj) : Option LoanParams :=
  if truthy (jget params "principal") && truthy (jget params "interest_rate")
      && truthy (jget params "years") then
    match pyFloatO (jget params "principal"),
        pyFloatO (jget params "interest_rate"),
        pyIntO (jget params "years") with
    | some p, some ir, some y => some ⟨p, ir, y⟩
    | _, _, _ => none
  else none

/-- Validation stage of `_extract_investment_parameters`
(chatbot_app.py:602-626): the guard is `is not None` on all four
fields, then the conversions (failures caught, yielding `none`). -/
def extract_investment_parameters (params : JObj) : Option InvestParams :=
  if nonNull (jget params "initial_investment")
      && nonNull (jget params "monthly_contribution")
      && nonNull (jget params "annual_return")
      && nonNull (jget params "years") then
    match pyFloatO (jget params "initial_investment"),
        pyFloatO (jget params "monthly_contribution"),
        pyFloatO (jget params "annual_return"),
        pyIntO (jget params "years") with
    | some i, some m, some a, some y => some ⟨i, m, a, y⟩
    | _, _, _, _ => none
  else none

/-- Validation stage of `_extract_retirement_parameters`
(chatbot_app.py:662-686): `int(params.get("current_age", 30))` and so
on — the default is substituted only for an absent key; a present
`null` reaches `int()`/`float()`, raises, is caught by the
surrounding `except`, and the whole extraction yields `none`. -/
def extract_retirement_parameters (params : JObj) : Option RetireParams := do
  let ca ← pyInt (jgetD params "current_age" (.num 30))
  let ra ← pyInt (jgetD params "retirement_age" (.num 65))
  let le ← pyInt (jgetD params "life_expectancy" (.num 90))
  let ae ← pyFloat (jgetD params "annual_expenses" (.num 50000))
  let ir ← pyFloat (jgetD params "inflation_rate" (.num (5 / 2)))
  let cs ← pyFloat (jgetD params "current_savings" (.num 0))
  let mc ← pyFloat (jgetD params "monthly_contribution" (.num 500))
  let er ← pyFloat (jgetD params "expected_return" (.num 7))
  pure ⟨ca, ra, le, ae, ir, cs, mc, er⟩

/-! ### Python arithmetic with explicit failure

Python raises `ZeroDivisionError` on float division by zero and on
raising `0.0` to a negative power; the calculators wrap their bodies
in `try/except`, turning any such exception into an error result. -/

/-- Python float division: fails on a zero divisor. -/
def pydiv (a b : Rat) : Except String Rat :=
  if b = 0 then .error "float division by zero" else .ok (a / b)

/-- Python float `**` with an integer exponent: fails on `0.0 ** n`
for negative `n`. -/
def pypow (b : Rat) (e : Int) : Except String Rat :=
  if 0 ≤ e then .ok (b ^ e.toNat)
  else if b = 0 then .error "0.0 cannot be raised to a negative power"
  else .ok (b ^ e)

/-- One row of the amortization schedule
(`calculate_loan_payment`'s `schedule.append` dict). -/
structure LoanEntry where
  payment_number : Nat
  payment_amount : Rat
  principal_paid : Rat
  interest_paid : Rat
  remaining_balance : Rat
deriving DecidableEq, Repr

/-- The trimming condition of the schedule loop:
`i <= 12 or i % 12 == 0 or i == n_payments`. -/
def loanKeep (i : Nat) (n : Int) : Bool :=
  decide (i ≤ 12) || decide (i % 12 = 0) || decide ((i : Int) = n)

/-- The schedule loop exactly as written in the source: `k` months
remain, `bal` is the running balance, `i` the 1-based payment number;
a row is appended only when `loanKeep` holds. -/
def amortRowsF (mp r : Rat) (n : Int) : Nat → Rat → Nat → List LoanEntry
  | 0, _, _ => []
  | k + 1, bal, i =>
    let interest := bal * r
    let princ := mp - interest
    let bal2 := bal - princ
    let rest := amortRowsF mp r n k bal2 (i + 1)
    if loanKeep i n then
      ⟨i, mp, princ, interest, max 0 bal2⟩ :: rest
    else rest

/-- The same loop without the trimming condition: the full
month-by-month schedule the loop walks through. -/
def amortRows (mp r : Rat) : Nat → Rat → Nat → List LoanEntry
  | 0, _, _ => []
  | k + 1, bal, i =>
    let interest := bal * r
    let princ := mp - interest
    let bal2 := bal - princ
    ⟨i, mp, princ, interest, max 0 bal2⟩ :: amortRows mp r k bal2 (i + 1)

/-- The success payload of `calculate_loan_payment`. -/
structure LoanData where
  monthly_payment : Rat
  total_payments : Int
  total_cost : Rat
  total_interest : Rat
  interest_rate_monthly : Rat
  schedule : List LoanEntry
deriving DecidableEq, Repr

/-- Embedding of `calculate_loan_payment` (chatbot_app.py:105-168):
`monthly_rate = interest_rate / 100 / 12`; even split when the rate
is zero, otherwise the amortization formula; the appended schedule is
cut to its first 10 entries.  A `ZeroDivisionError` anywhere in the
body is caught and surfaced as an error result. -/
def calculate_loan_payment (principal interest_rate : Rat) (years : Int) :
    Except String LoanData :=
  let monthly_rate := interest_rate / 100 / 12
  let n_payments : Int := years * 12
  let mpE : Except String Rat :=
    if monthly_rate = 0 then pydiv principal (n_payments : Rat)
    else
      match pypow (1 + monthly_rate) n_payments with
      | .error m => .error m
      | .ok grow => pydiv (principal * (monthly_rate * grow)) (grow - 1)
  match mpE with
  | .error m => .error ("Failed to calculate loan payment: " ++ m)
  | .ok monthly_payment =>
    .ok { monthly_payment := monthly_payment
          total_payments := n_payments
          total_cost := monthly_payment * (n_payments : Rat)
          total_interest := monthly_payment * (n_payments : Rat) - principal
          interest_rate_monthly := monthly_rate
          schedule :=
            (amortRowsF monthly_payment monthly_rate n_payments
              n_payments.toNat principal 1).take 10 }

/-- Running state of the `calculate_investment_growth` loop. -/
structure InvAcc where
  balance : Rat
  total_contribution : Rat
  total_interest : Rat
  balances : List (Nat × Rat)
  contributions : List (Nat × Rat)
  interests : List (Nat × Rat)
deriving DecidableEq, Repr

/-- The month-by-month loop of `calculate_investment_growth`: add the
contribution, then compound, snapshotting at each 12-month boundary. -/
def investLoop (mc r : Rat) : Nat → Nat → InvAcc → InvAcc
  | 0, _, acc => acc
  | k + 1, i, acc =>
    let bal1 := acc.balance + mc
    let tc := acc.total_contribution + mc
    let interest := bal1 * r
    let bal2 := bal1 + interest
    let ti := acc.total_interest + interest
    let acc2 : InvAcc :=
      if i % 12 = 0 then
        { balance := bal2, total_contribution := tc, total_interest := ti
          balances := acc.balances ++ [(i / 12, bal2)]
          contributions := acc.contributions ++ [(i / 12, tc)]
          interests := acc.interests ++ [(i / 12, ti)] }
      else
        { balance := bal2, total_contribution := tc, total_interest := ti
          balances := acc.balances, contributions := acc.contributions
          interests := acc.interests }
    investLoop mc r k (i + 1) acc2

/-- The success payload of `calculate_investment_growth`. -/
structure InvestData where
  final_balance : Rat
  total_contributions : Rat
  total_interest : Rat
  yearly_balances : List (Nat × Rat)
  yearly_contributions : List (Nat × Rat)
  yearly_interests : List (Nat × Rat)
deriving DecidableEq, Repr

/-- The body of `calculate_investment_growth` (chatbot_app.py:170-232):
`monthly_rate = annual_return / 100 / 12`, `n_months = years * 12`,
starting balance and running contribution equal to the initial
investment. -/
def investGrowthData (initial mc rate : Rat) (years : Int) : InvestData :=
  let r := rate / 100 / 12
  let n := (years * 12).toNat
  let acc := investLoop mc r n 1 ⟨initial, initial, 0, [], [], []⟩
  { final_balance := acc.balance
    total_contributions := acc.total_contribution
    total_interest := acc.total_interest
    yearly_balances := acc.balances
    yearly_contributions := acc.contributions
    yearly_interests := acc.interests }

/-- Embedding of `calculate_investment_growth`: its body performs no
division, so the `try/except` wrapper never fires and the result is
always a success. -/
def calculate_investment_growth (initial mc rate : Rat) (years : Int) :
    Except String InvestData :=
  .ok (investGrowthData initial mc rate years)

/-- The success payload of `calculate_retirement_needs`. -/
structure RetireData where
  years_to_retirement : Int
  years_in_retirement : Int
  future_annual_expenses : Rat
  retirement_corpus_needed : Rat
  future_value_current_savings : Rat
  future_value_contributions : Rat
  total_future_value : Rat
  shortfall_or_surplus : Rat
  is_surplus : Bool
  required_monthly_contribution : Rat
deriving DecidableEq, Repr

/-- Embedding of `calculate_retirement_needs` (chatbot_app.py:234-311),
in the source's evaluation order: inflation projection, 25x corpus
heuristic, future value of savings, annuity-due future value of
contributions (this divides by the monthly rate), shortfall, and the
required extra contribution when short.  Exceptions from the divisions
and powers are caught and surfaced as an error result. -/
def calculate_retirement_needs (current_age retirement_age life_expectancy : Int)
    (annual_expenses inflation_rate current_savings monthly_contribution
      expected_return : Rat) : Except String RetireData :=
  let ytr : Int := retirement_age - current_age
  let yir : Int := life_expectancy - retirement_age
  match pypow (1 + inflation_rate / 100) ytr with
  | .error m => .error ("Failed to calculate retirement needs: " ++ m)
  | .ok infl =>
    let future_annual_expenses := annual_expenses * infl
    let corpus := future_annual_expenses * 25
    let r := expected_return / 100 / 12
    let n : Int := ytr * 12
    match pypow (1 + r) n with
    | .error m => .error ("Failed to calculate retirement needs: " ++ m)
    | .ok grow =>
      let fv_savings := current_savings * grow
      match pydiv (monthly_contribution * (grow - 1)) r with
      | .error m => .error ("Failed to calculate retirement needs: " ++ m)
      | .ok annuity =>
        let fv_contributions := annuity * (1 + r)
        let total := fv_savings + fv_contributions
        let shortfall := corpus - total
        let requiredE : Except String Rat :=
          if 0 < shortfall then
            match pydiv (shortfall * r) (grow - 1) with
            | .error m => .error m
            | .ok extra => .ok (monthly_contribution + extra)
          else .ok monthly_contribution
        match requiredE with
        | .error m => .error ("Failed to calculate retirement needs: " ++ m)
        | .ok required =>
          .ok { years_to_retirement := ytr
                years_in_retirement := yir
                future_annual_expenses := future_annual_expenses
                retirement_corpus_needed := corpus
                future_value_current_savings := fv_savings
                future_value_contributions := fv_contributions
                total_future_value := total
                shortfall_or_surplus :=
                  if shortfall < 0 then -shortfall else shortfall
                is_surplus := decide (shortfall < 0)
                required_monthly_contribution := required }

/-- One entry of the 50/30/20 rule assessment. -/
structure RuleEntry where
  actual : Rat
  recommended : Rat
  difference : Rat
deriving DecidableEq, Repr

/-- The `rule_assessment` mapping of `analyze_budget`. -/
structure RuleAssessment where
  needs : RuleEntry
  wants : RuleEntry
  savings_debt : RuleEntry
deriving DecidableEq, Repr

/-- The success payload of `analyze_budget`. -/
structure BudgetData where
  income : Rat
  total_expenses : Rat
  savings : Rat
  savings_rate : Rat
  category_percentages : List (String × Rat)
  rule_assessment : RuleAssessment
  top_expenses : List (String × Rat)
  suggestions : List String
deriving DecidableEq, Repr

/-- Stable insertion (descending by amount): a later element is placed
after every earlier element with an equal or larger amount, giving the
same order as Python's stable `sorted(..., reverse=True)`. -/
def insertDesc (x : String × Rat) : List (String × Rat) → List (String × Rat)
  | [] => [x]
  | y :: t => if x.2 ≥ y.2 then x :: y :: t else y :: insertDesc x t

/-- Stable descending sort by amount, as `sorted(expenses_dict.items(),
key=lambda x: x[1], reverse=True)`. -/
def sortDescByAmount : List (String × Rat) → List (String × Rat)
  | [] => []
  | x :: t => insertDesc x (sortDescByAmount t)

/-- The `needs` bucket category names of `analyze_budget`. -/
def needsCategories : List String :=
  ["housing", "utilities", "groceries", "healthcare", "insurance",
   "transportation"]

/-- The `wants` bucket category names of `analyze_budget`. -/
def wantsCategories : List String :=
  ["entertainment", "dining", "shopping", "hobbies", "subscriptions",
   "travel"]

/-- The savings/debt bucket category names of `analyze_budget`. -/
def savingsCategories : List String := ["savings", "investments", "debt_payment"]

/-- Sum of the amounts of the listed categories that appear in the
expense mapping (`sum(expenses_dict.get(cat, 0) for cat in cats if cat
in expenses_dict)`). -/
def bucketTotal (expenses : List (String × Rat)) (cats : List String) : Rat :=
  (cats.map fun c => ((List.lookup c expenses).getD 0)).sum

/-- Embedding of `analyze_budget` (chatbot_app.py:313-405).  Every
division is guarded by `income > 0` in the source, so the body cannot
raise and the result is always a success. -/
def analyze_budget (income : Rat) (expenses : List (String × Rat)) :
    Except String BudgetData :=
  let total_expenses := (expenses.map Prod.snd).sum
  let savings := income - total_expenses
  let savings_rate := if 0 < income then savings / income * 100 else 0
  let category_percentages :=
    expenses.map fun ca =>
      (ca.1, if 0 < income then ca.2 / income * 100 else 0)
  let needs_total := bucketTotal expenses needsCategories
  let wants_total := bucketTotal expenses wantsCategories
  let savings_debt_total := bucketTotal expenses savingsCategories + savings
  let needs_pct := if 0 < income then needs_total / income * 100 else 0
  let wants_pct := if 0 < income then wants_total / income * 100 else 0
  let sd_pct := if 0 < income then savings_debt_total / income * 100 else 0
  let suggestions :=
    (if savings < 0 then
      ["Your expenses exceed your income. Consider reducing expenses or increasing income."]
     else []) ++
    (if 50 < needs_pct then
      ["Your essential expenses are higher than recommended. Consider finding ways to reduce housing, transportation, or other necessary costs."]
     else []) ++
    (if 30 < wants_pct then
      ["Your discretionary spending is higher than recommended. Consider cutting back on entertainment, dining out, or other non-essential expenses."]
     else []) ++
    (if sd_pct < 20 then
      ["You\x27re saving less than recommended. Aim to increase your savings rate to at least 20% of your income."]
     else [])
  .ok { income := income
        total_expenses := total_expenses
        savings := savings
        savings_rate := savings_rate
        category_percentages := category_percentages
        rule_assessment :=
          { needs := ⟨needs_pct, 50, needs_pct - 50⟩
            wants := ⟨wants_pct, 30, wants_pct - 30⟩
            savings_debt := ⟨sd_pct, 20, sd_pct - 20⟩ }
        top_expenses := (sortDescByAmount expenses).take 3
        suggestions := suggestions }

/-! ### Conversation transcript, intent router and pipeline -/

/-- Role of a conversation turn. -/
inductive Role where
  | system : Role
  | user : Role
  | assistant : Role
deriving DecidableEq, Repr

/-- One turn of the conversation history. -/
structure Turn where
  role : Role
  content : String
deriving DecidableEq, Repr

/-- A function call produced by the router: the calculator identifier
together with its extracted parameters. -/
inductive FunctionCall where
  | stockCall (ticker : String) : FunctionCall
  | loanCall (p : LoanParams) : FunctionCall
  | investCall (p : InvestParams) : FunctionCall
  | retireCall (p : RetireParams) : FunctionCall
  | budgetCall (p : BudgetParams) : FunctionCall
deriving DecidableEq, Repr

/-- Success payload of an executed function call.  The stock payload
comes entirely from the external market-data provider and carries no
information relevant to any claim, so it is left empty here. -/
inductive FunctionData where
  | stockD : FunctionData
  | loanD (d : LoanData) : FunctionData
  | investD (d : InvestData) : FunctionData
  | retireD (d : RetireData) : FunctionData
  | budgetD (d : BudgetData) : FunctionData
deriving DecidableEq, Repr

deriving instance DecidableEq for Except

/-- A calculator result: the `status: success, data` /
`status: error, message` tagged outcome. -/
abbrev FunctionResult := Except String FunctionData

/-- Outcomes of the external collaborators for one query turn:
`primary` and `followUp` are the content of the first choice of the
two chat-completion calls (`none` models a response with no choices);
the four `Option` parameter fields are the outcomes of the LLM-backed
extractors `_extract_loan_parameters` and friends (whose pure
validation stages are embedded above); `stock` is the outcome of the
market-data lookup for a given ticker. -/
structure Env where
  primary : Option String
  followUp : Option String
  loanParams : Option LoanParams
  investParams : Option InvestParams
  retireParams : Option RetireParams
  budgetParams : Option BudgetParams
  stock : String → Except String Unit

/-- The stock-domain keyword set of `parse_financial_query`. -/
def stockKeywords : List String := ["stock", "ticker", "share price", "stock price"]

/-- The loan-domain keyword set. -/
def loanKeywords : List String := ["loan", "mortgage", "payment", "interest"]

/-- The investment-domain keyword set. -/
def investmentKeywords : List String := ["invest", "compound", "growth", "return"]

/-- The retirement-domain keyword set. -/
def retirementKeywords : List String := ["retire", "retirement", "401k", "pension"]

/-- The budget-domain keyword set. -/
def budgetKeywords : List String := ["budget", "spending", "expense", "income"]

/-- `any(keyword in query.lower() for keyword in kws)`. -/
def kwAny (qlower : List Char) (kws : List String) : Bool :=
  kws.any fun k => listSub k.data qlower

/-- The `if/elif` dispatch chain of `parse_financial_query`
(chatbot_app.py:437-482): keyword sets are tested in the source's
order; inside the taken branch a function call is produced only when
the extractor yields something (for stock: a nonempty ticker list). -/
def routerDispatch (query : String) (env : Env) : Option FunctionCall :=
  let ql := pyLowerChars query.data
  if kwAny ql stockKeywords then
    match extract_ticker_symbols query with
    | [] => none
    | t :: _ => some (.stockCall t)
  else if kwAny ql loanKeywords then env.loanParams.map .loanCall
  else if kwAny ql investmentKeywords then env.investParams.map .investCall
  else if kwAny ql retirementKeywords then env.retireParams.map .retireCall
  else if kwAny ql budgetKeywords then env.budgetParams.map .budgetCall
  else none

/-- The five intent domains, for the spec-side router formulation. -/
inductive FinDomain where
  | stock : FinDomain
  | loan : FinDomain
  | investment : FinDomain
  | retirement : FinDomain
  | budget : FinDomain
deriving DecidableEq, Repr

/-- Keyword set of each domain. -/
def domainKeywords : FinDomain → List String
  | .stock => stockKeywords
  | .loan => loanKeywords
  | .investment => investmentKeywords
  | .retirement => retirementKeywords
  | .budget => budgetKeywords

/-- The fixed priority order of the spec's router contract. -/
def domainOrder : List FinDomain :=
  [.stock, .loan, .investment, .retirement, .budget]

/-- Spec-side router, following the words of the spec (sections 4.1 and
4.2): scan the domain keyword sets in the fixed priority order and
take the first keyword-matching domain; only that one domain fires.
Within the selected domain, stock produces a call only when a ticker
candidate was extracted (an empty candidate list yields no call at
all — the router does not fall through to a later domain), and the
other four defer parameter validity to their extractor. -/
def routerSpec (query : String) (env : Env) : Option FunctionCall :=
  match domainOrder.find? (fun d => kwAny (pyLowerChars query.data) (domainKeywords d)) with
  | none => none
  | some .stock => (extract_ticker_symbols query).head?.map .stockCall
  | some .loan => env.loanParams.map .loanCall
  | some .investment => env.investParams.map .investCall
  | some .retirement => env.retireParams.map .retireCall
  | some .budget => env.budgetParams.map .budgetCall

/-- The successful payload of `parse_financial_query`. -/
structure ParsedResult where
  response : String
  function_call : Option FunctionCall
deriving Repr

/-- Embedding of `parse_financial_query` (chatbot_app.py:407-500) as a
transformation of the conversation history: the user turn is appended,
then, if the primary chat-completion call returned a choice, the
assistant turn is appended and the dispatch chain runs; a response
without choices is the terminal error for this call. -/
def parse_financial_query (query : String) (env : Env) (hist : List Turn) :
    List Turn × Except String ParsedResult :=
  let hist1 := hist ++ [⟨.user, query⟩]
  match env.primary with
  | none => (hist1, .error "Failed to get response from language model")
  | some c =>
    (hist1 ++ [⟨.assistant, c⟩],
     .ok { response := c, function_call := routerDispatch query env })

/-- Executes an identified function call against the embedded
calculators (the stock lookup delegates to the external provider). -/
def executeCall (env : Env) : FunctionCall → FunctionResult
  | .stockCall t => (env.stock t).map fun _ => .stockD
  | .loanCall p =>
    (calculate_loan_payment p.principal p.interest_rate p.years).map .loanD
  | .investCall p =>
    (calculate_investment_growth p.initial_investment p.monthly_contribution
      p.annual_return p.years).map .investD
  | .retireCall p =>
    (calculate_retirement_needs p.current_age p.retirement_age
      p.life_expectancy p.annual_expenses p.inflation_rate p.current_savings
      p.monthly_contribution p.expected_return).map .retireD
  | .budgetCall p => (analyze_budget p.income p.expenses_dict).map .budgetD

/-- The Python name of the called function, for the synthetic system
turn. -/
def callName : FunctionCall → String
  | .stockCall _ => "get_stock_data"
  | .loanCall _ => "calculate_loan_payment"
  | .investCall _ => "calculate_investment_growth"
  | .retireCall _ => "calculate_retirement_needs"
  | .budgetCall _ => "analyze_budget"

/-- Abbreviated rendering of a function result.  The source embeds
`json.dumps(function_result)` here; the exact serialized text is
irrelevant to every claim (the transcript claims treat this turn's
content opaquely), so only the status tag is rendered. -/
def renderResult : FunctionResult → String
  | .error m => "status error message " ++ m
  | .ok _ => "status success"

/-- Content of the synthetic system turn:
`f"Function {name} returned: {json.dumps(result)}"`. -/
def resultMessage (fc : FunctionCall) (fr : FunctionResult) : String :=
  "Function " ++ callName fc ++ " returned: " ++ renderResult fr

/-- Replaces the content of the first assistant turn of the list,
keeping everything else; `none` when the list has no assistant turn. -/
def replaceFirstAssistant (c : String) : List Turn → Option (List Turn)
  | [] => none
  | t :: ts =>
    if t.role = .assistant then some ({ t with content := c } :: ts)
    else (replaceFirstAssistant c ts).map (t :: ·)

/-- The in-place update of `process_query`: walk the history from the
end, replace the content of the most recent assistant turn; append a
new assistant turn only when none exists (the `for ... else` of the
source). -/
def replaceLastAssistant (hist : List Turn) (c : String) : List Turn :=
  match replaceFirstAssistant c hist.reverse with
  | some r => r.reverse
  | none => hist ++ [⟨.assistant, c⟩]

/-- The reply payload returned by `process_query`; absent dict keys of
the Python reply are modelled as `none`. -/
structure Reply where
  status : String
  query : Option String
  response : Option String
  message : Option String
  function_result : Option FunctionResult
deriving DecidableEq, Repr

/-- Embedding of `process_query` (chatbot_app.py:751-825): parse the
query (an error is returned unchanged); execute an identified call;
append the synthetic system turn; issue the follow-up call, and on a
choice replace the most recent assistant turn and return the bundled
reply.  When the follow-up response has no choices the source falls
through to the plain success return carrying the primary response. -/
def process_query (query : String) (env : Env) (hist : List Turn) :
    List Turn × Reply :=
  match parse_financial_query query env hist with
  | (hist1, .error m) =>
    (hist1, { status := "error", query := none, response := none
              message := some m, function_result := none })
  | (hist1, .ok pr) =>
    match pr.function_call with
    | none =>
      (hist1, { status := "success", query := some query
                response := some pr.response, message := none
                function_result := none })
    | some fc =>
      let fr := executeCall env fc
      let hist2 := hist1 ++ [⟨.system, resultMessage fc fr⟩]
      match env.followUp with
      | some c2 =>
        (replaceLastAssistant hist2 c2,
         { status := "success", query := some query, response := some c2
           message := none, function_result := some fr })
      | none =>
        (hist2, { status := "success", query := some query
                  response := some pr.response, message := none
                  function_result := none })

/-! ### Concrete fixtures used by witnesses and counterexamples -/

/-- An environment whose primary chat-completion call returns a
response with no choices. -/
def envNoChoices : Env :=
  { primary := none, followUp := none, loanParams := none
    investParams := none, retireParams := none, budgetParams := none
    stock := fun _ => .ok () }

/-- An environment where the primary call returns a choice, the loan
extractor yields parameters, and the follow-up narration call returns
a response with no choices. -/
def envLoanNoFollowUp : Env :=
  { primary := some "Sure.", followUp := none
    loanParams := some ⟨1200, 0, 1⟩, investParams := none
    retireParams := none, budgetParams := none, stock := fun _ => .ok () }

/-- An environment where both chat-completion calls return a choice
and the loan extractor yields parameters. -/
def envLoanFollowUp : Env :=
  { primary := some "Sure.", followUp := some "Updated."
    loanParams := some ⟨1200, 0, 1⟩, investParams := none
    retireParams := none, budgetParams := none, stock := fun _ => .ok () }

/-- The value of `calculate_loan_payment 1200 0 1` (zero rate, one
year): an even split of 100 per month; the appended schedule holds the
twelve year-1 rows, trimmed to the first 10. -/
def loanDemoData : LoanData :=
  { monthly_payment := 100, total_payments := 12, total_cost := 1200
    total_interest := 0, interest_rate_monthly := 0
    schedule :=
      [⟨1, 100, 100, 0, 1100⟩, ⟨2, 100, 100, 0, 1000⟩,
       ⟨3, 100, 100, 0, 900⟩, ⟨4, 100, 100, 0, 800⟩,
       ⟨5, 100, 100, 0, 700⟩, ⟨6, 100, 100, 0, 600⟩,
       ⟨7, 100, 100, 0, 500⟩, ⟨8, 100, 100, 0, 400⟩,
       ⟨9, 100, 100, 0, 300⟩, ⟨10, 100, 100, 0, 200⟩] }

/-- A parsed loan-extraction object with all three fields present and
non-null, but a zero (hence falsy) principal. -/
def loanZeroObj : JObj :=
  [("principal", JValue.num 0), ("interest_rate", JValue.num 5),
   ("years", JValue.num 10)]

/-- A parsed retirement-extraction object carrying an explicit `null`
for a field, as the extraction prompt instructs the model to emit for
values not found in the query. -/
def retireNullObj : JObj := [("current_age", JValue.null)]

/-! ### Helper lemmas -/

/-- A truthy lookup always converts with `float()` in the modelled
value universe. -/
lemma truthy_float_isSome (o : Option JValue) (h : truthy o = true) :
    (pyFloatO o).isSome := by
  cases o with
  | none => simp [truthy] at h
  | some v => cases v <;> simp [truthy, pyFloatO, pyFloat] at h ⊢

/-- A truthy lookup always converts with `int()` in the modelled value
universe. -/
lemma truthy_int_isSome (o : Option JValue) (h : truthy o = true) :
    (pyIntO o).isSome := by
  cases o with
  | none => simp [truthy] at h
  | some v => cases v <;> simp [truthy, pyIntO, pyInt] at h ⊢

/-- A present non-null lookup always converts with `float()` in the
modelled value universe. -/
lemma nonNull_float_isSome (o : Option JValue) (h : nonNull o = true) :
    (pyFloatO o).isSome := by
  cases o with
  | none => simp [nonNull] at h
  | some v => cases v <;> simp [nonNull, pyFloatO, pyFloat] at h ⊢

/-- A present non-null lookup always converts with `int()` in the
modelled value universe. -/
lemma nonNull_int_isSome (o : Option JValue) (h : nonNull o = true) :
    (pyIntO o).isSome := by
  cases o with
  | none => simp [nonNull] at h
  | some v => cases v <;> simp [nonNull, pyIntO, pyInt] at h ⊢

/-- The filtered schedule loop equals the full month-by-month schedule
restricted to the kept payment numbers. -/
lemma amortRowsF_eq_filter (mp r : Rat) (n : Int) :
    ∀ (k i : Nat) (bal : Rat),
      amortRowsF mp r n k bal i
        = (amortRows mp r k bal i).filter (fun e => loanKeep e.payment_number n) := by
  intro k
  induction k with
  | zero => intro i bal; rfl
  | succ k ih =>
    intro i bal
    simp only [amortRowsF, amortRows, List.filter_cons, ih]

/-- Every row of the full schedule has a clamped non-negative balance
and splits its payment exactly into interest plus principal. -/
lemma mem_amortRows (mp r : Rat) :
    ∀ (k : Nat) (bal : Rat) (i : Nat) (e : LoanEntry),
      e ∈ amortRows mp r k bal i →
      0 ≤ e.remaining_balance
        ∧ e.interest_paid + e.principal_paid = e.payment_amount := by
  intro k
  induction k with
  | zero => intro bal i e he; simp [amortRows] at he
  | succ k ih =>
    intro bal i e he
    simp only [amortRows, List.mem_cons] at he
    rcases he with he | he
    · subst he
      refine ⟨le_max_left 0 _, ?_⟩
      show bal * r + (mp - bal * r) = mp
      ring
    · exact ih _ _ _ he

/-- Inverting a successful `calculate_loan_payment`: the returned
schedule is the first 10 rows of the filtered loop. -/
lemma loan_ok_inversion (p r : Rat) (y : Int) (d : LoanData)
    (h : calculate_loan_payment p r y = .ok d) :
    d.schedule =
      (amortRowsF d.monthly_payment (r / 100 / 12) (y * 12)
        (y * 12).toNat p 1).take 10 := by
  simp only [calculate_loan_payment] at h
  split at h
  · exact absurd h (by simp)
  · rw [Except.ok.injEq] at h
    subst h
    rfl

set_option maxHeartbeats 2000000 in
/-- Evaluation of `calculate_loan_payment 1200 0 1`. -/
lemma loan_demo_eval : calculate_loan_payment 1200 0 1 = .ok loanDemoData := by
  norm_num [calculate_loan_payment, pydiv, pypow, amortRowsF, loanKeep, loanDemoData,
    max_def, Int.toNat_ofNat]

/-! ### Claim theorems -/

/-- Claim C2 (code evaluated at the failing input): because
`_extract_ticker_symbols` uppercases the whole query before
tokenizing, the case filter is vacuous and every alphabetic token of
length at most 5 qualifies — the query of the claim yields seven
candidates, not just AAPL. -/
theorem C2_ticker_extraction_eval :
    extract_ticker_symbols "What is the price of AAPL today?"
      = ["WHAT", "IS", "THE", "PRICE", "OF", "AAPL", "TODAY"] := by
  decide

/-- Claim C4 (counterexample): a parsed loan object whose three
required fields are all present and non-null, yet
`_extract_loan_parameters` returns no parameters, because its guard
is Python truthiness and the principal is 0. -/
theorem C4_claim_counterexample :
    nonNull (jget loanZeroObj "principal") = true
    ∧ nonNull (jget loanZeroObj "interest_rate") = true
    ∧ nonNull (jget loanZeroObj "years") = true
    ∧ extract_loan_parameters loanZeroObj = none := by
  decide

/-- Claim C4 (amended): over the modelled value universe, the loan
extractor returns a parameter mapping exactly when all three required
fields are present with truthy (non-null, non-zero, non-false)
values, while the investment extractor returns one exactly when its
four required fields are present and non-null. -/
theorem C4_extractor_validation : ∀ params : JObj,
    (extract_loan_parameters params).isSome
      = (truthy (jget params "principal")
          && truthy (jget params "interest_rate")
          && truthy (jget params "years"))
    ∧ (extract_investment_parameters params).isSome
      = (nonNull (jget params "initial_investment")
          && nonNull (jget params "monthly_contribution")
          && nonNull (jget params "annual_return")
          && nonNull (jget params "years")) := by
  intro params
  constructor
  · by_cases hc : (truthy (jget params "principal")
        && truthy (jget params "interest_rate")
        && truthy (jget params "years")) = true
    · obtain ⟨⟨h1, h2⟩, h3⟩ := by simpa [Bool.and_eq_true] using hc
      obtain ⟨p, hp⟩ := Option.isSome_iff_exists.mp (truthy_float_isSome _ h1)
      obtain ⟨q, hq⟩ := Option.isSome_iff_exists.mp (truthy_float_isSome _ h2)
      obtain ⟨y, hy⟩ := Option.isSome_iff_exists.mp (truthy_int_isSome _ h3)
      simp [extract_loan_parameters, hc, hp, hq, hy, h1, h2, h3]
    · simp only [Bool.not_eq_true] at hc
      simp [extract_loan_parameters, hc]
  · by_cases hc : (nonNull (jget params "initial_investment")
        && nonNull (jget params "monthly_contribution")
        && nonNull (jget params "annual_return")
        && nonNull (jget params "years")) = true
    · obtain ⟨⟨⟨h1, h2⟩, h3⟩, h4⟩ := by simpa [Bool.and_eq_true] using hc
      obtain ⟨a, ha⟩ := Option.isSome_iff_exists.mp (nonNull_float_isSome _ h1)
      obtain ⟨b, hb⟩ := Option.isSome_iff_exists.mp (nonNull_float_isSome _ h2)
      obtain ⟨c, hcv⟩ := Option.isSome_iff_exists.mp (nonNull_float_isSome _ h3)
      obtain ⟨y, hy⟩ := Option.isSome_iff_exists.mp (nonNull_int_isSome _ h4)
      simp [extract_investment_parameters, hc, ha, hb, hcv, hy, h1, h2, h3, h4]
    · simp only [Bool.not_eq_true] at hc
      simp [extract_investment_parameters, hc]

/-- Claim C5 (code evaluated at the failing input): a parsed
retirement object that carries an explicit `null` — the very
representation the extraction prompt requests for a value not found —
is rejected (`int(None)` raises and the handler returns no
parameters), while the defaults are applied only for absent keys, as
the empty object shows. -/
theorem C5_null_field_rejected :
    extract_retirement_parameters retireNullObj = none
    ∧ extract_retirement_parameters ([] : JObj)
      = some { current_age := 30, retirement_age := 65
               life_expectancy := 90, annual_expenses := 50000
               inflation_rate := 5 / 2, current_savings := 0
               monthly_contribution := 500, expected_return := 7 } :=
  ⟨rfl, rfl⟩

set_option maxHeartbeats 1000000 in
/-- Claim C6 (counterexample): at principal 1000, interest rate −2400
and a 1-year term the amortization denominator is zero, so
`calculate_loan_payment` returns an error result and no schedule at
all — refuting the claim for every interest rate. -/
theorem C6_claim_counterexample :
    calculate_loan_payment 1000 (-2400) 1
      = .error "Failed to calculate loan payment: float division by zero" := by
  have h12 : ((-1 : Rat)) ^ Int.toNat 12 = 1 := by
    rw [show Int.toNat 12 = 12 from rfl]
    norm_num
  norm_num [calculate_loan_payment, pydiv, pypow, h12]
  rfl

/-- Claim C6 (amended): for every principal, every term of at least
one year and every interest rate at which the computation succeeds
(any non-negative rate in particular), the returned schedule is the
full month-by-month schedule restricted to every month of year 1,
every 12th month thereafter and the final month, capped to at most 10
entries. -/
theorem C6_schedule_trimming (principal interest_rate : Rat) (years : Int)
    (d : LoanData) (hy : 1 ≤ years)
    (h : calculate_loan_payment principal interest_rate years = .ok d) :
    d.schedule =
      ((amortRows d.monthly_payment (interest_rate / 100 / 12)
          (years * 12).toNat principal 1).filter
        (fun e => loanKeep e.payment_number (years * 12))).take 10
    ∧ d.schedule.length ≤ 10 := by
  have hs := loan_ok_inversion principal interest_rate years d h
  rw [amortRowsF_eq_filter] at hs
  refine ⟨hs, ?_⟩
  rw [hs]
  simp [List.length_take]

/-- Witness for C6 at the loan (1200, 0%, 1 year). -/
theorem C6_schedule_trimming_witness :
    loanDemoData.schedule =
      ((amortRows loanDemoData.monthly_payment ((0 : Rat) / 100 / 12)
          ((1 : Int) * 12).toNat 1200 1).filter
        (fun e => loanKeep e.payment_number ((1 : Int) * 12))).take 10
    ∧ loanDemoData.schedule.length ≤ 10 :=
  C6_schedule_trimming 1200 0 1 loanDemoData (by decide) loan_demo_eval

/-- Claim C7: every schedule entry a successful
`calculate_loan_payment` returns has a non-negative (clamped)
remaining balance, and its interest plus principal equals the payment
amount exactly. -/
theorem C7_entry_invariants (principal interest_rate : Rat) (years : Int)
    (d : LoanData) (e : LoanEntry)
    (h : calculate_loan_payment principal interest_rate years = .ok d)
    (he : e ∈ d.schedule) :
    0 ≤ e.remaining_balance
    ∧ e.interest_paid + e.principal_paid = e.payment_amount := by
  have hs := loan_ok_inversion principal interest_rate years d h
  rw [hs] at he
  have he2 := List.take_subset 10 _ he
  rw [amortRowsF_eq_filter] at he2
  exact mem_amortRows _ _ _ _ _ _ (List.mem_filter.mp he2).1

/-- Witness for C7 at the first entry of the (1200, 0%, 1 year)
schedule. -/
theorem C7_entry_invariants_witness :
    0 ≤ (⟨1, 100, 100, 0, 1100⟩ : LoanEntry).remaining_balance
    ∧ (⟨1, 100, 100, 0, 1100⟩ : LoanEntry).interest_paid
        + (⟨1, 100, 100, 0, 1100⟩ : LoanEntry).principal_paid
      = (⟨1, 100, 100, 0, 1100⟩ : LoanEntry).payment_amount :=
  C7_entry_invariants 1200 0 1 loanDemoData ⟨1, 100, 100, 0, 1100⟩
    loan_demo_eval (by decide)

/-- With zero contribution and zero rate the investment loop changes
none of its numeric accumulators. -/
lemma investLoop_zero :
    ∀ (k i : Nat) (acc : InvAcc),
      (investLoop 0 0 k i acc).balance = acc.balance
      ∧ (investLoop 0 0 k i acc).total_contribution = acc.total_contribution
      ∧ (investLoop 0 0 k i acc).total_interest = acc.total_interest := by
  intro k
  induction k with
  | zero => intro i acc; exact ⟨rfl, rfl, rfl⟩
  | succ k ih =>
    intro i acc
    simp only [investLoop, mul_zero, add_zero]
    by_cases h : i % 12 = 0
    · simpa [h] using ih (i + 1) _
    · simpa [h] using ih (i + 1) _

/-- Claim C9: with zero monthly contribution and zero annual return,
`calculate_investment_growth` succeeds and its final balance equals
the initial investment exactly, with zero total interest and total
contributions equal to the initial investment. -/
theorem C9_zero_rate_identity (initial : Rat) (years : Int) (hy : 1 ≤ years) :
    calculate_investment_growth initial 0 0 years
        = .ok (investGrowthData initial 0 0 years)
    ∧ (investGrowthData initial 0 0 years).final_balance = initial
    ∧ (investGrowthData initial 0 0 years).total_interest = 0
    ∧ (investGrowthData initial 0 0 years).total_contributions = initial := by
  refine ⟨rfl, ?_, ?_, ?_⟩ <;> simp only [investGrowthData, zero_div]
  · exact (investLoop_zero _ _ _).1
  · exact (investLoop_zero _ _ _).2.2
  · exact (investLoop_zero _ _ _).2.1

/-- Witness for C9 at an initial investment of 1000 over 3 years. -/
theorem C9_zero_rate_identity_witness :
    calculate_investment_growth 1000 0 0 3 = .ok (investGrowthData 1000 0 0 3)
    ∧ (investGrowthData 1000 0 0 3).final_balance = 1000
    ∧ (investGrowthData 1000 0 0 3).total_interest = 0
    ∧ (investGrowthData 1000 0 0 3).total_contributions = 1000 :=
  C9_zero_rate_identity 1000 3 (by decide)

/-- Claim C10: with a zero expected return and retirement after the
current age, the annuity future-value computation divides by the zero
monthly rate; the exception is caught and the function returns an
error result (never a success), for every choice of the remaining
inputs. -/
theorem C10_zero_return_is_error
    (current_age retirement_age life_expectancy : Int)
    (annual_expenses inflation_rate current_savings monthly_contribution : Rat)
    (hlt : current_age < retirement_age) :
    calculate_retirement_needs current_age retirement_age life_expectancy
        annual_expenses inflation_rate current_savings monthly_contribution 0
      = .error "Failed to calculate retirement needs: float division by zero" := by
  have hytr : (0 : Int) ≤ retirement_age - current_age := by omega
  have hn : (0 : Int) ≤ (retirement_age - current_age) * 12 := by omega
  have hr : (0 : Rat) / 100 / 12 = 0 := by norm_num
  simp only [calculate_retirement_needs, pypow, pydiv, hr, if_pos hytr, if_pos hn]
  rfl

/-- Witness for C10 at the spec's standard retirement example with the
expected return set to zero. -/
theorem C10_zero_return_is_error_witness :
    calculate_retirement_needs 30 65 90 50000 (5 / 2) 0 500 0
      = .error "Failed to calculate retirement needs: float division by zero" :=
  C10_zero_return_is_error 30 65 90 50000 (5 / 2) 0 500 (by decide)

/-- Claim C1 (counterexample): an executed loan calculation followed
by a follow-up narration call that returns no choices does not end the
turn with the error result — `process_query` falls through to a
success reply. -/
theorem C1_claim_counterexample :
    envLoanNoFollowUp.followUp = none
    ∧ routerDispatch "i need a loan" envLoanNoFollowUp
        = some (.loanCall ⟨1200, 0, 1⟩)
    ∧ ((process_query "i need a loan" envLoanNoFollowUp []).2).status
        = "success" := by
  refine ⟨rfl, by decide, by decide⟩

/-- Claim C1 (amended): a primary chat-completion response with no
choices terminates the turn with the error result carrying the message
"Failed to get response from language model"; but when a calculator
has executed and the follow-up narration response has no choices,
`process_query` instead falls through to a success reply carrying the
primary response and no function result. -/
theorem C1_no_choices_behavior :
    (∀ (query : String) (env : Env) (hist : List Turn), env.primary = none →
      (process_query query env hist).2
        = { status := "error", query := none, response := none
            message := some "Failed to get response from language model"
            function_result := none })
    ∧ (∀ (query : String) (env : Env) (hist : List Turn) (c : String)
        (fc : FunctionCall), env.primary = some c → env.followUp = none →
        routerDispatch query env = some fc →
        (process_query query env hist).2
          = { status := "success", query := some query, response := some c
              message := none, function_result := none }) := by
  constructor
  · intro q env hist hp
    simp [process_query, parse_financial_query, hp]
  · intro q env hist c fc hp hf hd
    simp [process_query, parse_financial_query, hp, hd, hf]

/-- Witness for C1 at a no-choices primary call and at an executed
loan call with a no-choices follow-up call. -/
theorem C1_no_choices_behavior_witness :
    (process_query "hello there" envNoChoices []).2
      = { status := "error", query := none, response := none
          message := some "Failed to get response from language model"
          function_result := none }
    ∧ (process_query "i need a loan" envLoanNoFollowUp []).2
      = { status := "success", query := some "i need a loan"
          response := some "Sure.", message := none
          function_result := none } :=
  ⟨C1_no_choices_behavior.1 "hello there" envNoChoices [] rfl,
   C1_no_choices_behavior.2 "i need a loan" envLoanNoFollowUp [] "Sure."
     (.loanCall ⟨1200, 0, 1⟩) rfl rfl (by decide)⟩

/-- Claim C3: the dispatch chain of `parse_financial_query` agrees
with the spec's router contract — scan the keyword sets in the fixed
priority order stock, loan, investment, retirement, budget; only the
first keyword-matching domain fires; stock produces a call only when
a ticker candidate was extracted (yielding no call at all otherwise),
and the other four defer parameter validity to their extractor. -/
theorem C3_router_priority : ∀ (query : String) (env : Env),
    routerDispatch query env = routerSpec query env := by
  intro q env
  simp only [routerDispatch, routerSpec, domainOrder, domainKeywords, List.find?]
  by_cases h1 : kwAny (pyLowerChars q.data) stockKeywords
  · simp only [h1]
    cases hts : extract_ticker_symbols q <;> simp [hts]
  · simp only [h1]
    by_cases h2 : kwAny (pyLowerChars q.data) loanKeywords
    · simp [h2]
    · simp only [h2]
      by_cases h3 : kwAny (pyLowerChars q.data) investmentKeywords
      · simp [h3]
      · simp only [h3]
        by_cases h4 : kwAny (pyLowerChars q.data) retirementKeywords
        · simp [h4]
        · simp only [h4]
          by_cases h5 : kwAny (pyLowerChars q.data) budgetKeywords
          · simp [h5]
          · simp [h5]

/-- Replacing the last assistant turn of a transcript that ends with
a user turn, an assistant turn and a system turn rewrites exactly that
assistant turn's content in place. -/
lemma replaceLastAssistant_append (h : List Turn) (q c c2 m : String) :
    replaceLastAssistant (h ++ [⟨.user, q⟩, ⟨.assistant, c⟩, ⟨.system, m⟩]) c2
      = h ++ [⟨.user, q⟩, ⟨.assistant, c2⟩, ⟨.system, m⟩] := by
  simp [replaceLastAssistant, replaceFirstAssistant]

/-- Claim C8: when a function executed and the follow-up narration
call returns a choice, the final transcript is the initial one with
exactly three turns appended (user query, assistant turn, synthetic
system result turn), where the assistant turn's content has been
replaced in place by the narration — every pre-existing turn is
untouched. -/
theorem C8_transcript_update (hist : List Turn) (query : String) (env : Env)
    (c c2 : String) (fc : FunctionCall)
    (hp : env.primary = some c) (hf : env.followUp = some c2)
    (hd : routerDispatch query env = some fc) :
    (process_query query env hist).1
      = hist ++ [⟨.user, query⟩, ⟨.assistant, c2⟩,
          ⟨.system, resultMessage fc (executeCall env fc)⟩] := by
  simp only [process_query, parse_financial_query, hp, hd, hf]
  rw [show hist ++ [(⟨.user, query⟩ : Turn)] ++ [(⟨.assistant, c⟩ : Turn)]
        ++ [(⟨.system, resultMessage fc (executeCall env fc)⟩ : Turn)]
      = hist ++ [⟨.user, query⟩, ⟨.assistant, c⟩,
          ⟨.system, resultMessage fc (executeCall env fc)⟩] from by simp]
  exact replaceLastAssistant_append hist query c c2 _

/-- Witness for C8 at a one-turn starting transcript and an executed
loan call whose narration call returns a choice. -/
theorem C8_transcript_update_witness :
    (process_query "i need a loan" envLoanFollowUp [⟨.system, "s"⟩]).1
      = [⟨.system, "s"⟩] ++ [⟨.user, "i need a loan"⟩,
          ⟨.assistant, "Updated."⟩,
          ⟨.system, resultMessage (.loanCall ⟨1200, 0, 1⟩)
            (executeCall envLoanFollowUp (.loanCall ⟨1200, 0, 1⟩))⟩] :=
  C8_transcript_update [⟨.system, "s"⟩] "i need a loan" envLoanFollowUp "Sure."
    "Updated." (.loanCall ⟨1200, 0, 1⟩) rfl rfl (by decide)

end FinanceBot
